import Mathlib

/-!
Verification development for the SSL/TLS certificate expiry checker
(cert_checker.py).  The Python source is shallowly embedded below:
pure computations become Lean functions, the network and the alert
transports become explicit outcome values passed in, timestamps are
integer seconds, and Python dictionary results become structures.
-/

namespace CertChecker

/-- Severity status assigned to each host per run. -/
inductive Status where
  | OK
  | WARNING
  | CRITICAL
  | ERROR
deriving DecidableEq, Repr

/-- The string a status renders as in every output path of the source. -/
def statusStr : Status → String
  | .OK => "OK"
  | .WARNING => "WARNING"
  | .CRITICAL => "CRITICAL"
  | .ERROR => "ERROR"

/-- Thresholds as read from the config: config.get with defaults 7 and 30
in check_all_certificates (lines 152-155). -/
structure Thresholds where
  critical : Int
  warning : Int
deriving DecidableEq, Repr

/-- The defaults used by thresholds.get in the source. -/
def defaultThresholds : Thresholds := { critical := 7, warning := 30 }

/-- Everything the network can do to one get_certificate_expiry call:
either the TLS exchange succeeds and the notAfter field parses to a
timestamp (seconds), or one of the exception classes caught at lines
99-114 is raised.  The catch-all clause makes the function total over
this type. -/
inductive NetOutcome where
  | success (notAfterSec : Int)
  | socketTimeout
  | gaierror
  | sslError (detail : String)
  | otherError (detail : String)
deriving DecidableEq, Repr

/-- Whether the network outcome is the success case. -/
def NetOutcome.isSuccess : NetOutcome → Bool
  | .success _ => true
  | _ => false

/-- get_certificate_expiry (lines 70-114): returns the triple
(hostname, expiry_date, error_message); every exception path is caught
and folded into an error message, so the function is total.  The port
and timeout arguments only parametrize the connection attempt (and a
log line); they never reach the returned triple. -/
def get_certificate_expiry (hostname : String) (_port : Nat) (_timeout : Nat)
    (net : NetOutcome) : String × Option Int × Option String :=
  match net with
  | .success e => (hostname, some e, none)
  | .socketTimeout =>
      (hostname, none, some ("Connection timeout for " ++ hostname))
  | .gaierror =>
      (hostname, none, some ("DNS resolution failed for " ++ hostname))
  | .sslError d =>
      (hostname, none, some ("SSL error for " ++ hostname ++ ": " ++ d))
  | .otherError d =>
      (hostname, none, some ("Unexpected error for " ++ hostname ++ ": " ++ d))

/-- Python truthiness of an optional string: None and the empty string
are falsy.  Matches the uses of an optional string in a condition. -/
def pyTruthy : Option String → Bool
  | none => false
  | some s => !(s == "")

/-- days_until_expiry (line 148): (expiry_date - datetime.now()).days.
A Python timedelta is normalized so that its days attribute is the
difference in seconds divided by 86400 rounded toward negative
infinity; timestamps are modelled in whole seconds. -/
def daysUntilExpiry (expiry now : Int) : Int :=
  Int.fdiv (expiry - now) 86400

/-- The per-host result dictionary built at lines 138-158. -/
structure CheckResult where
  hostname : String
  port : Nat
  expiry_date : Option Int
  error : Option String
  days_until_expiry : Option Int
  status : Status
deriving DecidableEq, Repr

/-- The threshold classification at lines 151-158: critical first,
then warning, else OK. -/
def classifyDays (days : Int) (th : Thresholds) : Status :=
  if days ≤ th.critical then .CRITICAL
  else if days ≤ th.warning then .WARNING
  else .OK

/-- Building one result dictionary from a fetch triple (lines 138-158):
status starts as ERROR when the error field is truthy, OK otherwise;
when an expiry date is present the day count and the threshold
classification overwrite the days and status fields. -/
def mkResult (hostname : String) (port : Nat)
    (fetched : Option Int × Option String) (th : Thresholds) (now : Int) :
    CheckResult :=
  let base : CheckResult :=
    { hostname := hostname
      port := port
      expiry_date := fetched.1
      error := fetched.2
      days_until_expiry := none
      status := if pyTruthy fetched.2 then .ERROR else .OK }
  match fetched.1 with
  | none => base
  | some e =>
      let d := daysUntilExpiry e now
      { base with days_until_expiry := some d, status := classifyDays d th }

/-- One configured website: hostname plus site.get with default 443. -/
structure Site where
  hostname : String
  port : Nat
deriving DecidableEq, Repr

/-- check_all_certificates over a host list whose network behaviour is
given per site.  The thread pool completes every submitted task; the
completion order is not semantically significant, so the result list is
taken in submission order. -/
def check_all_certificates (sites : List (Site × NetOutcome))
    (th : Thresholds) (now : Int) : List CheckResult :=
  sites.map (fun sn =>
    mkResult sn.1.hostname sn.1.port
      (get_certificate_expiry sn.1.hostname sn.1.port 10 sn.2).2 th now)

/-- Exit code derivation in main (lines 475-484): count CRITICAL first
and exit 2, then count ERROR and exit 1, else exit 0. -/
def exitCode (results : List CheckResult) : Nat :=
  if 0 < results.countP (fun r => r.status == Status.CRITICAL) then 2
  else if 0 < results.countP (fun r => r.status == Status.ERROR) then 1
  else 0

/-- Alert channel kinds configured in the alerts block. -/
inductive Channel where
  | email
  | webhook
deriving DecidableEq, Repr

/-- Per-channel enable flags from the alerts configuration block. -/
structure AlertsConfig where
  enabled : Bool
  emailEnabled : Bool
  webhookEnabled : Bool
deriving DecidableEq, Repr

/-- The transport behaviour during one run: each channel send either
succeeds or raises, and the except clauses catch whatever is raised. -/
structure SendEnv where
  emailSend : Except String Unit
  webhookSend : Except String Unit

/-- One attempted channel delivery and whether it succeeded. -/
structure SendAttempt where
  channel : Channel
  succeeded : Bool
deriving DecidableEq, Repr

/-- The filter at lines 210-213: keep results whose status is WARNING,
CRITICAL or ERROR. -/
def alertFilter (results : List CheckResult) : List CheckResult :=
  results.filter (fun r =>
    r.status == Status.WARNING || r.status == Status.CRITICAL ||
      r.status == Status.ERROR)

/-- _send_email_alert and _send_webhook_alert both wrap the whole send
in try/except and log the failure (lines 235-257, 267-285), so an
attempt is recorded as failed rather than propagated. -/
def attemptChannel (c : Channel) (outcome : Except String Unit) : SendAttempt :=
  match outcome with
  | .ok _ => { channel := c, succeeded := true }
  | .error _ => { channel := c, succeeded := false }

/-- send_alerts (lines 201-225): nothing when alerts are disabled or the
filtered set is empty; otherwise the email channel is attempted when
enabled, then the webhook channel when enabled, each independently. -/
def send_alerts (cfg : AlertsConfig) (results : List CheckResult)
    (env : SendEnv) : List SendAttempt :=
  if !cfg.enabled then []
  else
    let alert_results := alertFilter results
    if alert_results.isEmpty then []
    else
      (if cfg.emailEnabled then [attemptChannel .email env.emailSend]
       else []) ++
        (if cfg.webhookEnabled then [attemptChannel .webhook env.webhookSend]
         else [])

/-- Python str() of an optional integer cell: None prints as the word
None, an integer prints in decimal. -/
def pyCellOfOptInt : Option Int → String
  | none => "None"
  | some d => toString d

/-- Python str() of an optional string cell. -/
def pyCellOfOptStr : Option String → String
  | none => "None"
  | some s => s

/-- Date rendering used in the email expiry column; no claim inspects
the strftime pattern, so it is abstracted to the decimal timestamp. -/
def dateStr (e : Int) : String := toString e

/-- One row of the email alert table (lines 314-329). -/
structure EmailRow where
  website : String
  statusCell : String
  daysCell : String
  expiryCell : String
  detailsCell : String
deriving DecidableEq, Repr

/-- The email table row built at lines 321-329.  The days cell and the
details cell call dict.get with defaults N/A and Certificate expiring
soon, but both keys are always present in the result dictionary (lines
138-145), so dict.get returns the stored value — None renders as the
word None and the defaults are dead.  The expiry cell uses an explicit
conditional, so its N/A branch is live. -/
def emailRow (r : CheckResult) : EmailRow :=
  { website := r.hostname ++ ":" ++ toString r.port
    statusCell := statusStr r.status
    daysCell := pyCellOfOptInt r.days_until_expiry
    expiryCell :=
      match r.expiry_date with
      | some e => dateStr e
      | none => "N/A"
    detailsCell := pyCellOfOptStr r.error }

/-- The email body is the table of rows over the filtered results. -/
def emailRows (results : List CheckResult) : List EmailRow :=
  results.map emailRow

/-- One field of a Slack attachment. -/
structure SlackField where
  title : String
  value : String
  short : Bool
deriving DecidableEq, Repr

/-- One Slack attachment (lines 385-390). -/
structure SlackAttachment where
  color : String
  fields : List SlackField
  footer : String
  ts : Int
deriving DecidableEq, Repr

/-- The Slack webhook payload (lines 392-395). -/
structure SlackPayload where
  text : String
  attachments : List SlackAttachment
deriving DecidableEq, Repr

/-- Color lookup at lines 352-356; OK falls to the dictionary default. -/
def slackColor : Status → String
  | .CRITICAL => "danger"
  | .WARNING => "warning"
  | .ERROR => "danger"
  | .OK => "#808080"

/-- _create_slack_payload body for one result (lines 351-390): the days
field is appended only when the value is not None, the error field only
when the error is truthy. -/
def mkSlackAttachment (now : Int) (r : CheckResult) : SlackAttachment :=
  { color := slackColor r.status
    fields :=
      [ { title := "Website"
          value := r.hostname ++ ":" ++ toString r.port
          short := true }
      , { title := "Status", value := statusStr r.status, short := true } ] ++
      (match r.days_until_expiry with
        | some d =>
            [{ title := "Days Until Expiry", value := toString d, short := true }]
        | none => []) ++
      (if pyTruthy r.error then
        [{ title := "Error", value := r.error.getD "", short := false }]
      else [])
    footer := "SSL Certificate Checker"
    ts := now }

/-- _create_slack_payload (lines 347-395). -/
def slackPayload (now : Int) (results : List CheckResult) : SlackPayload :=
  { text := "⚠️ SSL Certificate Alert"
    attachments := results.map (mkSlackAttachment now) }

/-- One fact of a Teams MessageCard section. -/
structure TeamsFact where
  name : String
  value : String
deriving DecidableEq, Repr

/-- One Teams section (lines 425-428). -/
structure TeamsSection where
  activityTitle : String
  facts : List TeamsFact
deriving DecidableEq, Repr

/-- The Teams webhook payload (lines 430-437). -/
structure TeamsPayload where
  summary : String
  themeColor : String
  title : String
  sections : List TeamsSection
deriving DecidableEq, Repr

/-- _create_teams_payload body for one result (lines 401-428): the days
fact is appended only when the value is not None, the error fact only
when the error is truthy. -/
def mkTeamsSection (r : CheckResult) : TeamsSection :=
  { activityTitle := "Certificate Alert: " ++ r.hostname
    facts :=
      [ { name := "Website", value := r.hostname ++ ":" ++ toString r.port }
      , { name := "Status", value := statusStr r.status } ] ++
      (match r.days_until_expiry with
        | some d => [{ name := "Days Until Expiry", value := toString d }]
        | none => []) ++
      (if pyTruthy r.error then
        [{ name := "Error", value := r.error.getD "" }]
      else []) }

/-- _create_teams_payload (lines 397-437). -/
def teamsPayload (results : List CheckResult) : TeamsPayload :=
  { summary := "SSL Certificate Alert"
    themeColor := "FF0000"
    title := "⚠️ SSL Certificate Alert"
    sections := results.map mkTeamsSection }

/-- The expired banner printed at line 197 of display_results. -/
def expiredLine : String := "⚠️  CERTIFICATE HAS EXPIRED!"

/-- Status symbols of the console output (lines 186-191). -/
def statusSymbol : Status → String
  | .OK => "✓"
  | .WARNING => "⚠"
  | .CRITICAL => "✗"
  | .ERROR => "✗"

/-- display_results body for one result (lines 172-197).  In the branch
without an error the source reads expiry_date and days_until_expiry
directly; a missing value there would raise, which is unreachable for
results produced by check_all_certificates, so the optional values are
matched explicitly. -/
def displayLines (r : CheckResult) : List String :=
  [ "Website: " ++ r.hostname ++ ":" ++ toString r.port
  , "Status: " ++ statusStr r.status ] ++
  (if pyTruthy r.error then
    ["Error: " ++ r.error.getD ""]
  else
    [ "Certificate Expiry Date: " ++
        (match r.expiry_date with
          | some e => dateStr e
          | none => "None")
    , "Days Until Expiry: " ++ pyCellOfOptInt r.days_until_expiry ++
        " days " ++ statusSymbol r.status ] ++
    (match r.days_until_expiry with
      | some d => if d < 0 then [expiredLine] else []
      | none => []))

/-- Whether the first character list starts the second. -/
def startsWithChars : List Char → List Char → Bool
  | [], _ => true
  | _ :: _, [] => false
  | a :: as, b :: bs => a == b && startsWithChars as bs

/-- Whether the first character list occurs contiguously in the second. -/
def hasInfixChars : List Char → List Char → Bool
  | needle, [] => startsWithChars needle []
  | needle, b :: bs =>
      startsWithChars needle (b :: bs) || hasInfixChars needle bs

/-- Whether a rendered string carries an expired marker: the console
banner contains the word EXPIRED, so a rendering flags expiry
distinctly when some component string contains that word in either
case. -/
def mentionsExpired (s : String) : Bool :=
  hasInfixChars "EXPIRED".data s.data || hasInfixChars "expired".data s.data

/-- Whether any string of a rendering carries an expired marker. -/
def anyMentionsExpired (ss : List String) : Bool :=
  ss.any mentionsExpired

/-- All strings of an email row. -/
def emailRowStrings (row : EmailRow) : List String :=
  [row.website, row.statusCell, row.daysCell, row.expiryCell, row.detailsCell]

/-- All strings of a Slack field. -/
def slackFieldStrings (f : SlackField) : List String :=
  [f.title, f.value]

/-- All strings of a Slack attachment. -/
def slackAttachmentStrings (a : SlackAttachment) : List String :=
  a.color :: a.footer :: (a.fields.map slackFieldStrings).flatten

/-- All strings of a Teams fact. -/
def teamsFactStrings (f : TeamsFact) : List String :=
  [f.name, f.value]

/-- All strings of a Teams section. -/
def teamsSectionStrings (s : TeamsSection) : List String :=
  s.activityTitle :: (s.facts.map teamsFactStrings).flatten

/-- The value of the Status field of a Slack attachment, when present. -/
def slackStatusValue (a : SlackAttachment) : Option String :=
  (a.fields.find? (fun f => f.title == "Status")).map (fun f => f.value)

/-- The value of the Days Until Expiry field of a Slack attachment. -/
def slackDaysValue (a : SlackAttachment) : Option String :=
  (a.fields.find? (fun f => f.title == "Days Until Expiry")).map
    (fun f => f.value)

/-- The value of the Status fact of a Teams section, when present. -/
def teamsStatusValue (s : TeamsSection) : Option String :=
  (s.facts.find? (fun f => f.name == "Status")).map (fun f => f.value)

/-- The value of the Days Until Expiry fact of a Teams section. -/
def teamsDaysValue (s : TeamsSection) : Option String :=
  (s.facts.find? (fun f => f.name == "Days Until Expiry")).map
    (fun f => f.value)

/-- The first character of a string, when any. -/
def headChar (s : String) : Option Char :=
  s.data.head?

/-- A concrete all-good result: expiry one hundred days out. -/
def rOk : CheckResult :=
  mkResult "ok.example" 443
    (get_certificate_expiry "ok.example" 443 10 (.success 8640000)).2
    defaultThresholds 0

/-- A concrete expired-certificate result: notAfter is 432000 seconds
before the reference instant, five days past expiry. -/
def rExpired : CheckResult :=
  mkResult "example.com" 443
    (get_certificate_expiry "example.com" 443 10 (.success (-432000))).2
    defaultThresholds 0

/-- A concrete DNS-failure result. -/
def rDnsFail : CheckResult :=
  mkResult "bad.example" 443
    (get_certificate_expiry "bad.example" 443 10 .gaierror).2
    defaultThresholds 0

/-- A concrete warning result: expiry twenty days out. -/
def rWarning : CheckResult :=
  mkResult "warn.example" 443
    (get_certificate_expiry "warn.example" 443 10 (.success 1728000)).2
    defaultThresholds 0

end CertChecker

namespace CertChecker

theorem append_left_ne_empty (a b : String) (ha : a.length ≠ 0) :
    (a ++ b) ≠ "" := by
  intro hc
  have hl := congrArg String.length hc
  simp [String.length_append] at hl
  exact ha hl.1

theorem pyTruthy_append (a b : String) (ha : a.length ≠ 0) :
    pyTruthy (some (a ++ b)) = true := by
  simp [pyTruthy]
  exact append_left_ne_empty a b ha

theorem ne_of_headChar_ne (s t : String) (h : headChar s ≠ headChar t) :
    s ≠ t :=
  fun he => h (congrArg headChar he)

theorem headChar_append (a b : String) (ha : a.data ≠ []) :
    headChar (a ++ b) = headChar a := by
  unfold headChar
  rw [String.data_append]
  cases h : a.data with
  | nil => exact absurd h ha
  | cons x xs => rfl

theorem attemptChannel_channel (c : Channel) (o : Except String Unit) :
    (attemptChannel c o).channel = c := by
  cases o <;> rfl

theorem fetch_error_truthy (hostname : String) (p t : Nat) (net : NetOutcome)
    (h : net.isSuccess = false) :
    pyTruthy (get_certificate_expiry hostname p t net).2.2 = true := by
  cases net with
  | success e => simp [NetOutcome.isSuccess] at h
  | socketTimeout => exact pyTruthy_append _ _ (by decide)
  | gaierror => exact pyTruthy_append _ _ (by decide)
  | sslError d =>
      refine pyTruthy_append _ _ ?_
      simp [String.length_append]
      intro h1
      exact absurd h1 (by decide)
  | otherError d =>
      refine pyTruthy_append _ _ ?_
      simp [String.length_append]
      intro h1
      exact absurd h1 (by decide)

theorem slack_teams_entry (now : Int) (r : CheckResult) :
    slackStatusValue (mkSlackAttachment now r) = some (statusStr r.status) ∧
    teamsStatusValue (mkTeamsSection r) = some (statusStr r.status) ∧
    slackDaysValue (mkSlackAttachment now r)
        = r.days_until_expiry.map (fun d => toString d) ∧
    teamsDaysValue (mkTeamsSection r)
        = r.days_until_expiry.map (fun d => toString d) := by
  cases hd : r.days_until_expiry <;> cases he : pyTruthy r.error <;>
    simp [slackStatusValue, teamsStatusValue, slackDaysValue, teamsDaysValue,
      mkSlackAttachment, mkTeamsSection, hd, he, List.find?]

theorem statusStr_eq_ok_iff (s : Status) : statusStr s = "OK" ↔ s = Status.OK := by
  cases s <;> simp [statusStr]

/-- C1: for every successful fetch outcome and any thresholds the
classifier records the day count and assigns CRITICAL when the day
count is at most the critical threshold (negative counts included),
else WARNING when it is at most the warning threshold, else OK; the
critical test runs first, so a day count satisfying both thresholds
yields CRITICAL. -/
theorem claim1_classification (hostname : String) (p t : Nat) (e now : Int)
    (th : Thresholds) :
    (mkResult hostname p
        (get_certificate_expiry hostname p t (.success e)).2 th now).days_until_expiry
      = some (daysUntilExpiry e now) ∧
    (daysUntilExpiry e now ≤ th.critical →
      (mkResult hostname p
          (get_certificate_expiry hostname p t (.success e)).2 th now).status
        = Status.CRITICAL) ∧
    (th.critical < daysUntilExpiry e now → daysUntilExpiry e now ≤ th.warning →
      (mkResult hostname p
          (get_certificate_expiry hostname p t (.success e)).2 th now).status
        = Status.WARNING) ∧
    (th.critical < daysUntilExpiry e now → th.warning < daysUntilExpiry e now →
      (mkResult hostname p
          (get_certificate_expiry hostname p t (.success e)).2 th now).status
        = Status.OK) := by
  refine ⟨rfl, ?_, ?_, ?_⟩
  · intro h
    simp [mkResult, get_certificate_expiry, classifyDays, h]
  · intro h1 h2
    have hc : ¬ (daysUntilExpiry e now ≤ th.critical) := by omega
    simp [mkResult, get_certificate_expiry, classifyDays, hc, h2]
  · intro h1 h2
    have hc : ¬ (daysUntilExpiry e now ≤ th.critical) := by omega
    have hw : ¬ (daysUntilExpiry e now ≤ th.warning) := by omega
    simp [mkResult, get_certificate_expiry, classifyDays, hc, hw]

/-- C1 witness: five days past expiry against the default thresholds is
classified CRITICAL. -/
theorem claim1_classification_witness :
    (mkResult "example.com" 443
        (get_certificate_expiry "example.com" 443 10 (.success (-432000))).2
        defaultThresholds 0).status = Status.CRITICAL :=
  (claim1_classification "example.com" 443 10 (-432000) 0
      defaultThresholds).2.1 (by decide)

/-- C2: every fetch failure is classified ERROR with no day count, and
the result does not depend on the thresholds at all. -/
theorem claim2_failure_is_error (hostname : String) (p t : Nat)
    (net : NetOutcome) (th th2 : Thresholds) (now : Int)
    (h : net.isSuccess = false) :
    (mkResult hostname p
        (get_certificate_expiry hostname p t net).2 th now).status
      = Status.ERROR ∧
    (mkResult hostname p
        (get_certificate_expiry hostname p t net).2 th now).days_until_expiry
      = none ∧
    mkResult hostname p (get_certificate_expiry hostname p t net).2 th now
      = mkResult hostname p (get_certificate_expiry hostname p t net).2 th2 now := by
  have ht := fetch_error_truthy hostname p t net h
  cases net with
  | success e => simp [NetOutcome.isSuccess] at h
  | socketTimeout => exact ⟨by simp [mkResult, get_certificate_expiry] at ht ⊢; simp [ht], rfl, rfl⟩
  | gaierror => exact ⟨by simp [mkResult, get_certificate_expiry] at ht ⊢; simp [ht], rfl, rfl⟩
  | sslError d => exact ⟨by simp [mkResult, get_certificate_expiry] at ht ⊢; simp [ht], rfl, rfl⟩
  | otherError d => exact ⟨by simp [mkResult, get_certificate_expiry] at ht ⊢; simp [ht], rfl, rfl⟩

/-- C2 witness: a DNS failure is classified ERROR. -/
theorem claim2_failure_is_error_witness :
    (mkResult "bad.example" 443
        (get_certificate_expiry "bad.example" 443 10 .gaierror).2
        defaultThresholds 0).status = Status.ERROR :=
  (claim2_failure_is_error "bad.example" 443 10 .gaierror
      defaultThresholds defaultThresholds 0 (by decide)).1

/-- C3: the exit code is 0 when every host is OK, 2 when some host is
CRITICAL, and 1 when some host is ERROR and none is CRITICAL, so
CRITICAL dominates ERROR when both occur. -/
theorem claim3_exit_codes (results : List CheckResult) :
    ((∀ r ∈ results, r.status = Status.OK) → exitCode results = 0) ∧
    ((∃ r ∈ results, r.status = Status.CRITICAL) → exitCode results = 2) ∧
    ((∃ r ∈ results, r.status = Status.ERROR) →
      (∀ r ∈ results, r.status ≠ Status.CRITICAL) → exitCode results = 1) := by
  refine ⟨?_, ?_, ?_⟩
  · intro hall
    have hc : results.countP (fun r => r.status == Status.CRITICAL) = 0 :=
      List.countP_eq_zero.mpr (fun r hr => by simp [hall r hr])
    have he : results.countP (fun r => r.status == Status.ERROR) = 0 :=
      List.countP_eq_zero.mpr (fun r hr => by simp [hall r hr])
    simp [exitCode, hc, he]
  · rintro ⟨r, hr, hstat⟩
    have hc : 0 < results.countP (fun r => r.status == Status.CRITICAL) :=
      List.countP_pos_iff.mpr ⟨r, hr, by simp [hstat]⟩
    simp [exitCode, hc]
  · rintro ⟨r, hr, hstat⟩ hnone
    have hc : results.countP (fun r => r.status == Status.CRITICAL) = 0 :=
      List.countP_eq_zero.mpr (fun x hx => by simp [hnone x hx])
    have he : 0 < results.countP (fun r => r.status == Status.ERROR) :=
      List.countP_pos_iff.mpr ⟨r, hr, by simp [hstat]⟩
    simp [exitCode, hc, he]

/-- C3 witness: a run holding one ERROR host and one CRITICAL host
exits with code 2. -/
theorem claim3_exit_codes_witness : exitCode [rDnsFail, rExpired] = 2 :=
  (claim3_exit_codes [rDnsFail, rExpired]).2.1
    ⟨rExpired, by decide, by decide⟩

/-- C4: the alert pipeline keeps exactly the WARNING, CRITICAL and
ERROR results, an OK result never reaches a payload (no Slack entry of
the filtered set carries the OK status), and an empty filtered set
means no channel send is attempted. -/
theorem claim4_filter (results : List CheckResult) (cfg : AlertsConfig)
    (env : SendEnv) (now : Int) :
    (∀ r : CheckResult, r ∈ alertFilter results ↔
      (r ∈ results ∧ (r.status = Status.WARNING ∨ r.status = Status.CRITICAL ∨
        r.status = Status.ERROR))) ∧
    (∀ r ∈ alertFilter results, r.status ≠ Status.OK) ∧
    (∀ a ∈ (slackPayload now (alertFilter results)).attachments,
      slackStatusValue a ≠ some "OK") ∧
    (alertFilter results = [] → send_alerts cfg results env = []) := by
  have hmem : ∀ r : CheckResult, r ∈ alertFilter results ↔
      (r ∈ results ∧ (r.status = Status.WARNING ∨ r.status = Status.CRITICAL ∨
        r.status = Status.ERROR)) := by
    intro r
    simp [alertFilter, List.mem_filter, or_assoc]
  have hok : ∀ r ∈ alertFilter results, r.status ≠ Status.OK := by
    intro r hr
    rcases ((hmem r).mp hr).2 with h | h | h <;> simp [h]
  refine ⟨hmem, hok, ?_, ?_⟩
  · intro a ha
    simp [slackPayload] at ha
    obtain ⟨r, hr, hra⟩ := ha
    rw [← hra]
    rw [(slack_teams_entry now r).1]
    intro hcontra
    have : statusStr r.status = "OK" := by
      exact Option.some.inj hcontra
    exact hok r hr ((statusStr_eq_ok_iff r.status).mp this)
  · intro h
    simp [send_alerts, h]

/-- C4 witness: an all-OK result set triggers no channel send. -/
theorem claim4_filter_witness :
    send_alerts { enabled := true, emailEnabled := true, webhookEnabled := true }
      [rOk] { emailSend := .ok (), webhookSend := .ok () } = [] :=
  (claim4_filter [rOk]
      { enabled := true, emailEnabled := true, webhookEnabled := true }
      { emailSend := .ok (), webhookSend := .ok () } 0).2.2.2 (by decide)

/-- C5 counterexample: the result rExpired is five days past expiry and
CRITICAL, yet its Slack attachment, its Teams section and its email row
contain no string carrying an expired marker, so only the console
rendering flags expiry distinctly and the claim fails for the payload
renderings. -/
theorem claim5_counterexample :
    rExpired.days_until_expiry = some (-5) ∧
    rExpired.status = Status.CRITICAL ∧
    anyMentionsExpired
        (slackAttachmentStrings (mkSlackAttachment 0 rExpired)) = false ∧
    anyMentionsExpired (teamsSectionStrings (mkTeamsSection rExpired)) = false ∧
    anyMentionsExpired (emailRowStrings (emailRow rExpired)) = false := by
  refine ⟨by decide, by decide, by decide, by decide, by decide⟩

/-- C5 amended: for a result without a fetch error the console display
prints the expired banner exactly when the day count is negative, while
the email, Slack and Teams renderings of the expired example carry no
expired marker at all — only the console flags expiry distinctly. -/
theorem claim5_amended (r : CheckResult) (d : Int)
    (hd : r.days_until_expiry = some d) (he : pyTruthy r.error = false) :
    ((expiredLine ∈ displayLines r) ↔ d < 0) ∧
    anyMentionsExpired (emailRowStrings (emailRow rExpired)) = false ∧
    anyMentionsExpired
        (slackAttachmentStrings (mkSlackAttachment 0 rExpired)) = false ∧
    anyMentionsExpired (teamsSectionStrings (mkTeamsSection rExpired)) = false := by
  refine ⟨?_, by decide, by decide, by decide⟩
  have h1 : expiredLine ≠ "Website: " ++ r.hostname ++ ":" ++ toString r.port := by
    apply ne_of_headChar_ne
    rw [show "Website: " ++ r.hostname ++ ":" ++ toString r.port
        = "Website: " ++ (r.hostname ++ ":" ++ toString r.port) by
      simp [String.append_assoc]]
    rw [headChar_append "Website: " _ (by decide)]
    decide
  have h2 : expiredLine ≠ "Status: " ++ statusStr r.status := by
    apply ne_of_headChar_ne
    rw [headChar_append "Status: " _ (by decide)]
    decide
  have h3 : expiredLine ≠ "Certificate Expiry Date: " ++
      (match r.expiry_date with
        | some e => dateStr e
        | none => "None") := by
    apply ne_of_headChar_ne
    rw [headChar_append "Certificate Expiry Date: " _ (by decide)]
    decide
  have h4 : expiredLine ≠ "Days Until Expiry: " ++
      pyCellOfOptInt (some d) ++ " days " ++ statusSymbol r.status := by
    apply ne_of_headChar_ne
    rw [show "Days Until Expiry: " ++ pyCellOfOptInt (some d) ++
        " days " ++ statusSymbol r.status
        = "Days Until Expiry: " ++ (pyCellOfOptInt (some d) ++
          " days " ++ statusSymbol r.status) by
      simp [String.append_assoc]]
    rw [headChar_append "Days Until Expiry: " _ (by decide)]
    decide
  simp only [displayLines, he, hd, Bool.false_eq_true, if_false,
    List.mem_append, List.mem_cons, List.not_mem_nil, or_false,
    h1, h2, h3, h4, false_or]
  split_ifs with hlt
  · simp [hlt]
  · simp [hlt]

/-- C5 amended witness: the expired example result makes the console
banner appear. -/
theorem claim5_amended_witness :
    (expiredLine ∈ displayLines rExpired) ↔ (-5 : Int) < 0 :=
  (claim5_amended rExpired (-5) (by decide) (by decide)).1

/-- C6: the code contradicts the claim and its own fallback strings.
For the DNS-failure result the email days cell renders the word None
instead of the literal N/A, because the dict.get default is dead (the
key always exists and holds None); for the warning result the email
details cell renders the word None instead of the default expiring-soon
note for the same reason; and the Slack and Teams entries omit the days
field and the error field entirely instead of rendering a fallback. -/
theorem claim6_code_bug :
    (emailRow rDnsFail).daysCell = "None" ∧
    (emailRow rDnsFail).daysCell ≠ "N/A" ∧
    (emailRow rWarning).detailsCell = "None" ∧
    (emailRow rWarning).detailsCell ≠ "Certificate expiring soon" ∧
    ((mkSlackAttachment 0 rDnsFail).fields.map (fun f => f.title))
      = ["Website", "Status", "Error"] ∧
    ((mkTeamsSection rDnsFail).facts.map (fun f => f.name))
      = ["Website", "Status", "Error"] ∧
    ((mkSlackAttachment 0 rWarning).fields.map (fun f => f.title))
      = ["Website", "Status", "Days Until Expiry"] ∧
    ((mkTeamsSection rWarning).facts.map (fun f => f.name))
      = ["Website", "Status", "Days Until Expiry"] := by
  refine ⟨by decide, by decide, by decide, by decide, by decide, by decide,
    by decide, by decide⟩

/-- C7: the set of channels attempted by send_alerts does not depend on
the transport outcomes, so one channel failing never prevents the other
channel from being attempted and no send failure escapes the run; when
both channels are enabled and the filtered set is nonempty, both are
attempted. -/
theorem claim7_channel_isolation (cfg : AlertsConfig)
    (results : List CheckResult) (env env2 : SendEnv) :
    ((send_alerts cfg results env).map (fun a => a.channel)
      = (send_alerts cfg results env2).map (fun a => a.channel)) ∧
    (cfg.enabled = true → cfg.emailEnabled = true → cfg.webhookEnabled = true →
      alertFilter results ≠ [] →
      (send_alerts cfg results env).map (fun a => a.channel)
        = [Channel.email, Channel.webhook]) := by
  constructor
  · unfold send_alerts
    split_ifs <;> simp [attemptChannel_channel] <;> split_ifs <;>
      simp [attemptChannel_channel]
  · intro h1 h2 h3 h4
    have h5 : (alertFilter results).isEmpty = false := by
      cases hq : alertFilter results with
      | nil => exact absurd hq h4
      | cons x xs => rfl
    simp [send_alerts, h1, h2, h3, h5, attemptChannel_channel]

/-- C7 witness: with the email transport failing, the webhook channel
is still attempted. -/
theorem claim7_channel_isolation_witness :
    (send_alerts { enabled := true, emailEnabled := true, webhookEnabled := true }
        [rWarning]
        { emailSend := .error "connection refused", webhookSend := .ok () }).map
      (fun a => a.channel) = [Channel.email, Channel.webhook] :=
  (claim7_channel_isolation
      { enabled := true, emailEnabled := true, webhookEnabled := true }
      [rWarning]
      { emailSend := .error "connection refused", webhookSend := .ok () }
      { emailSend := .ok (), webhookSend := .ok () }).2
    rfl rfl rfl (by decide)

/-- C8: the day count is the floor of the difference between expiry and
now measured in whole days: it is the unique integer whose day-window
contains the difference, and it is negative whenever the certificate is
already expired. -/
theorem claim8_floor_days (e now : Int) :
    (86400 * daysUntilExpiry e now ≤ e - now ∧
      e - now < 86400 * (daysUntilExpiry e now + 1)) ∧
    (∀ k : Int, 86400 * k ≤ e - now → e - now < 86400 * (k + 1) →
      k = daysUntilExpiry e now) ∧
    (e < now → daysUntilExpiry e now < 0) := by
  have hd : daysUntilExpiry e now = (e - now) / 86400 := by
    unfold daysUntilExpiry
    exact Int.fdiv_eq_ediv _ (by norm_num)
  refine ⟨by rw [hd]; omega, ?_, by rw [hd]; omega⟩
  intro k hk1 hk2
  rw [hd] at *
  omega

/-- C8 witness: an expiry 432000 seconds in the past gives a negative
day count. -/
theorem claim8_floor_days_witness : daysUntilExpiry (-432000) 0 < 0 :=
  (claim8_floor_days (-432000) 0).2.2 (by decide)

/-- C9: the Slack payload and the Teams payload built from the same
filtered result set contain one entry per result, each entry carries
the status string and the day string of its result, and at every index
the two payloads carry the same status value and the same days value. -/
theorem claim9_payload_equivalence (results : List CheckResult) (now : Int) :
    ((slackPayload now results).attachments.length = results.length) ∧
    ((teamsPayload results).sections.length = results.length) ∧
    (∀ r ∈ results,
      slackStatusValue (mkSlackAttachment now r) = some (statusStr r.status) ∧
      teamsStatusValue (mkTeamsSection r) = some (statusStr r.status) ∧
      slackDaysValue (mkSlackAttachment now r)
        = r.days_until_expiry.map (fun d => toString d) ∧
      teamsDaysValue (mkTeamsSection r)
        = r.days_until_expiry.map (fun d => toString d)) ∧
    (∀ i : Nat,
      ((slackPayload now results).attachments[i]?).map slackStatusValue
        = ((teamsPayload results).sections[i]?).map teamsStatusValue ∧
      ((slackPayload now results).attachments[i]?).map slackDaysValue
        = ((teamsPayload results).sections[i]?).map teamsDaysValue) := by
  refine ⟨by simp [slackPayload], by simp [teamsPayload],
    fun r _ => slack_teams_entry now r, ?_⟩
  intro i
  simp only [slackPayload, teamsPayload, List.getElem?_map]
  cases h : results[i]? with
  | none => simp
  | some r =>
      have he := slack_teams_entry now r
      simp [he.1, he.2.1, he.2.2.1, he.2.2.2]

/-- C9 witness: the DNS-failure entry carries the ERROR status in both
payload renderings at index zero. -/
theorem claim9_payload_equivalence_witness :
    ((slackPayload 0 [rDnsFail]).attachments[0]?).map slackStatusValue
      = ((teamsPayload [rDnsFail]).sections[0]?).map teamsStatusValue :=
  ((claim9_payload_equivalence [rDnsFail] 0).2.2.2 0).1

/-- C10: the fetch operation is total at its public interface — for
every hostname, port, timeout and network behaviour it returns a triple
whose first component is the input hostname, in which exactly one of
the expiry timestamp and the error message is present, and whose error
message is nonempty whenever present. -/
theorem claim10_fetch_total (hostname : String) (p t : Nat)
    (net : NetOutcome) :
    (get_certificate_expiry hostname p t net).1 = hostname ∧
    (((get_certificate_expiry hostname p t net).2.1.isSome = true ∧
        (get_certificate_expiry hostname p t net).2.2 = none) ∨
      ((get_certificate_expiry hostname p t net).2.1 = none ∧
        ∃ m, (get_certificate_expiry hostname p t net).2.2 = some m ∧
          m ≠ "")) := by
  cases net with
  | success e => exact ⟨rfl, Or.inl ⟨rfl, rfl⟩⟩
  | socketTimeout =>
      exact ⟨rfl, Or.inr ⟨rfl, _, rfl, append_left_ne_empty _ _ (by decide)⟩⟩
  | gaierror =>
      exact ⟨rfl, Or.inr ⟨rfl, _, rfl, append_left_ne_empty _ _ (by decide)⟩⟩
  | sslError d =>
      refine ⟨rfl, Or.inr ⟨rfl, _, rfl, append_left_ne_empty _ _ ?_⟩⟩
      simp [String.length_append]
      intro h1
      exact absurd h1 (by decide)
  | otherError d =>
      refine ⟨rfl, Or.inr ⟨rfl, _, rfl, append_left_ne_empty _ _ ?_⟩⟩
      simp [String.length_append]
      intro h1
      exact absurd h1 (by decide)

end CertChecker
